import Mathlib

set_option autoImplicit false

/-!
Verification of the byte-I/O abstraction layer of this repository:
the KFile dispatch and completion loops of libs/kfs/file.c and the
poll-driven socket transport of libs/kns/unix/syssock.c.

Shallow embedding conventions:
- `rc_t` is `Option RcErr` (`none` = 0 = success, `some e` = the RC tuple).
- A backend vtable entry is a pure function receiving an extra call-sequence
  index (first argument), so that successive calls of one C-level execution
  may return different results; the dispatch loops thread this index.
- C pointers that are only checked against NULL (`self`, `buffer`,
  `num_read`) become `Option`/`Bool` parameters.
- Loops that terminate structurally in C (the *All loops: each continuing
  iteration transfers at least one byte) are total, by well-founded
  recursion on the remaining byte count.  The *Exactly loops can loop
  forever in C (a timeout error retries without progress), so they take
  fuel and return `none` when the fuel runs out.
-/

/-- Module code of an RC value (first argument of the RC macro). -/
inductive RcMod where
  | rcFS
  | rcNS
deriving DecidableEq, Repr

/-- Target code of an RC value (second argument of the RC macro). -/
inductive RcTarget where
  | rcFile
  | rcNoTarg
  | rcStream
  | rcProcess
deriving DecidableEq, Repr

/-- Context code of an RC value (third argument of the RC macro). -/
inductive RcContext where
  | rcReading
  | rcWriting
  | rcAttaching
  | rcReleasing
  | rcDestroying
  | rcAccessing
  | rcResizing
  | rcResolving
  | rcAllocating
  | rcConstructing
deriving DecidableEq, Repr

/-- Object code of an RC value (fourth argument of the RC macro). -/
inductive RcObject where
  | rcSelf
  | rcParam
  | rcBuffer
  | rcFile
  | rcInterface
  | rcTransfer
  | rcTimeout
  | rcRange
  | rcMemory
  | rcNoObj
  | rcName
  | rcId
  | rcConnection
  | rcLink
  | rcMessage
  | rcDirEntry
  | rcPath
deriving DecidableEq, Repr

/-- State code of an RC value (fifth argument of the RC macro). -/
inductive RcState where
  | rcNull
  | rcNoPerm
  | rcInsufficient
  | rcBadVersion
  | rcIncomplete
  | rcExhausted
  | rcExcessive
  | rcInvalid
  | rcUnauthorized
  | rcExists
  | rcNotFound
  | rcError
  | rcUndefined
  | rcCanceled
  | rcOutofrange
  | rcNotAvailable
  | rcInterrupted
  | rcReadonly
  | rcUnknown
deriving DecidableEq, Repr

/-- A nonzero rc_t value, as assembled by the RC macro. -/
structure RcErr where
  mod : RcMod
  targ : RcTarget
  ctx : RcContext
  obj : RcObject
  state : RcState
deriving DecidableEq, Repr

/-- The RC macro. -/
def RC (m : RcMod) (t : RcTarget) (c : RcContext) (o : RcObject) (s : RcState) : RcErr :=
  ⟨m, t, c, o, s⟩

/-- An rc_t: `none` is 0 (success), `some e` a nonzero code. -/
abbrev Rc := Option RcErr

/-- RC ( rcFS, rcFile, rcReading, rcParam, rcNull ). -/
def rcReadParamNull : RcErr := RC .rcFS .rcFile .rcReading .rcParam .rcNull

/-- RC ( rcFS, rcFile, rcReading, rcSelf, rcNull ). -/
def rcReadSelfNull : RcErr := RC .rcFS .rcFile .rcReading .rcSelf .rcNull

/-- RC ( rcFS, rcFile, rcReading, rcFile, rcNoPerm ). -/
def rcReadNoPerm : RcErr := RC .rcFS .rcFile .rcReading .rcFile .rcNoPerm

/-- RC ( rcFS, rcFile, rcReading, rcBuffer, rcNull ). -/
def rcReadBufNull : RcErr := RC .rcFS .rcFile .rcReading .rcBuffer .rcNull

/-- RC ( rcFS, rcFile, rcReading, rcBuffer, rcInsufficient ). -/
def rcReadBufInsufficient : RcErr := RC .rcFS .rcFile .rcReading .rcBuffer .rcInsufficient

/-- RC ( rcFS, rcFile, rcReading, rcInterface, rcBadVersion ). -/
def rcReadBadVersion : RcErr := RC .rcFS .rcFile .rcReading .rcInterface .rcBadVersion

/-- RC ( rcFS, rcFile, rcReading, rcTransfer, rcIncomplete ). -/
def rcReadIncomplete : RcErr := RC .rcFS .rcFile .rcReading .rcTransfer .rcIncomplete

/-- RC ( rcFS, rcFile, rcWriting, rcSelf, rcNull ). -/
def rcWriteSelfNull : RcErr := RC .rcFS .rcFile .rcWriting .rcSelf .rcNull

/-- RC ( rcFS, rcFile, rcWriting, rcFile, rcNoPerm ). -/
def rcWriteNoPerm : RcErr := RC .rcFS .rcFile .rcWriting .rcFile .rcNoPerm

/-- RC ( rcFS, rcFile, rcWriting, rcBuffer, rcNull ). -/
def rcWriteBufNull : RcErr := RC .rcFS .rcFile .rcWriting .rcBuffer .rcNull

/-- RC ( rcFS, rcFile, rcWriting, rcInterface, rcBadVersion ). -/
def rcWriteBadVersion : RcErr := RC .rcFS .rcFile .rcWriting .rcInterface .rcBadVersion

/-- RC ( rcFS, rcFile, rcWriting, rcTransfer, rcIncomplete ). -/
def rcWriteIncomplete : RcErr := RC .rcFS .rcFile .rcWriting .rcTransfer .rcIncomplete

/-- RC ( rcFS, rcFile, rcAttaching, rcRange, rcExcessive ). -/
def rcAttachExcessive : RcErr := RC .rcFS .rcFile .rcAttaching .rcRange .rcExcessive

/-- RC ( rcFS, rcFile, rcAttaching, rcSelf, rcInvalid ). -/
def rcAttachInvalid : RcErr := RC .rcFS .rcFile .rcAttaching .rcSelf .rcInvalid

/-- RC ( rcFS, rcFile, rcReleasing, rcRange, rcExcessive ). -/
def rcReleaseExcessive : RcErr := RC .rcFS .rcFile .rcReleasing .rcRange .rcExcessive

/-- RC ( rcFS, rcFile, rcDestroying, rcInterface, rcBadVersion ). -/
def rcDestroyBadVersion : RcErr := RC .rcFS .rcFile .rcDestroying .rcInterface .rcBadVersion

/-- RC ( rcNS, rcStream, rcReading, rcNoObj, rcUnknown ). -/
def rcSockReadUnknown : RcErr := RC .rcNS .rcStream .rcReading .rcNoObj .rcUnknown

/-- RC ( rcNS, rcStream, rcReading, rcTimeout, rcExhausted ). -/
def rcSockReadTimeout : RcErr := RC .rcNS .rcStream .rcReading .rcTimeout .rcExhausted

/-- RC ( rcNS, rcProcess, rcAccessing, rcPath, rcNotFound ), returned by
KSocketMakePath when the HOME environment variable is unset. -/
def rcMakePathHomeNotFound : RcErr := RC .rcNS .rcProcess .rcAccessing .rcPath .rcNotFound

/-- HandleErrno of syssock.c: translates an OS errno value (Linux numbering)
into an RC tuple.  The default branch is the unknown-code fallback. -/
def HandleErrno (e : Nat) : RcErr :=
  match e with
  | 13 => RC .rcNS .rcNoTarg .rcReading .rcMemory .rcUnauthorized    -- EACCES
  | 98 => RC .rcNS .rcNoTarg .rcReading .rcMemory .rcExists          -- EADDRINUSE
  | 99 => RC .rcNS .rcNoTarg .rcReading .rcMemory .rcNotFound        -- EADDRNOTAVAIL
  | 11 => RC .rcNS .rcNoTarg .rcReading .rcNoObj .rcExhausted        -- EAGAIN
  | 97 => RC .rcNS .rcNoTarg .rcReading .rcName .rcError             -- EAFNOSUPPORT
  | 114 => RC .rcNS .rcNoTarg .rcReading .rcId .rcUndefined          -- EALREADY
  | 9 => RC .rcNS .rcNoTarg .rcReading .rcId .rcInvalid              -- EBADF
  | 111 => RC .rcNS .rcNoTarg .rcReading .rcConnection .rcCanceled   -- ECONNREFUSED
  | 104 => RC .rcNS .rcNoTarg .rcReading .rcConnection .rcCanceled   -- ECONNRESET
  | 89 => RC .rcNS .rcNoTarg .rcReading .rcId .rcInvalid             -- EDESTADDRREQ
  | 14 => RC .rcNS .rcNoTarg .rcReading .rcMemory .rcOutofrange      -- EFAULT
  | 115 => RC .rcNS .rcNoTarg .rcReading .rcId .rcUndefined          -- EINPROGRESS
  | 4 => RC .rcNS .rcNoTarg .rcReading .rcConnection .rcCanceled     -- EINTR
  | 22 => RC .rcNS .rcNoTarg .rcReading .rcParam .rcInvalid          -- EINVAL
  | 106 => RC .rcNS .rcNoTarg .rcReading .rcConnection .rcExists     -- EISCONN
  | 40 => RC .rcNS .rcNoTarg .rcResolving .rcLink .rcExcessive       -- ELOOP
  | 24 => RC .rcNS .rcNoTarg .rcReading .rcNoObj .rcError            -- EMFILE
  | 90 => RC .rcNS .rcNoTarg .rcReading .rcMessage .rcExcessive      -- EMSGSIZE
  | 36 => RC .rcNS .rcNoTarg .rcReading .rcName .rcExcessive         -- ENAMETOOLONG
  | 101 => RC .rcNS .rcNoTarg .rcReading .rcConnection .rcNotAvailable -- ENETUNREACH
  | 105 => RC .rcNS .rcNoTarg .rcReading .rcConnection .rcInterrupted  -- ENOBUFS
  | 2 => RC .rcNS .rcNoTarg .rcReading .rcId .rcNotFound             -- ENOENT
  | 12 => RC .rcNS .rcNoTarg .rcAllocating .rcMemory .rcError        -- ENOMEM
  | 107 => RC .rcNS .rcNoTarg .rcReading .rcConnection .rcInvalid    -- ENOTCONN
  | 20 => RC .rcNS .rcNoTarg .rcReading .rcDirEntry .rcError         -- ENOTDIR
  | 88 => RC .rcNS .rcNoTarg .rcReading .rcId .rcInvalid             -- ENOTSOCK
  | 95 => RC .rcNS .rcNoTarg .rcReading .rcParam .rcInvalid          -- EOPNOTSUPP
  | 1 => RC .rcNS .rcNoTarg .rcReading .rcMemory .rcUnauthorized     -- EPERM
  | 32 => RC .rcNS .rcNoTarg .rcReading .rcConnection .rcCanceled    -- EPIPE
  | 93 => RC .rcNS .rcNoTarg .rcReading .rcNoObj .rcError            -- EPROTONOSUPPORT
  | 30 => RC .rcNS .rcNoTarg .rcReading .rcNoObj .rcReadonly         -- EROFS
  | 110 => RC .rcNS .rcNoTarg .rcReading .rcConnection .rcNotAvailable -- ETIMEDOUT
  | _ => RC .rcNS .rcNoTarg .rcReading .rcNoObj .rcError

/-- Response of one backend vtable call: the rc it returned and the byte
count it stored through its count output parameter. -/
structure BkResp where
  rc : Rc
  count : Nat
deriving DecidableEq, Repr

/-- The v1 portion of a KFile vtable.  Each transfer entry takes a
call-sequence index first, then the arguments the C dispatch passes
(position, buffer size, and for the timed entries the timeout in
milliseconds, `none` when the C side passes NULL). -/
structure KFileVt where
  maj : Nat
  min : Nat
  read : Nat → Nat → Nat → BkResp
  timed_read : Nat → Nat → Nat → Option Nat → BkResp
  write : Nat → Nat → Nat → BkResp
  timed_write : Nat → Nat → Nat → Option Nat → BkResp

/-- A KFile as seen by the dispatch layer of file.c. -/
structure KFile where
  vt : KFileVt
  read_enabled : Bool
  write_enabled : Bool

/-- The common completion loop of ReadAll / TimedReadAll / WriteAll /
TimedWriteAll (file.c lines 331-339, 343-351, 405-413, 420-428, 700-708,
712-720, 765-773, 779-787): while `total < limit` issue `step ci total`
(the backend call for this variant); break with the backend error, break
with success on a zero count, otherwise accumulate and continue.  Each
continuing iteration transfers at least one byte, so the loop is total. -/
def allLoop (step : Nat → Nat → BkResp) (limit : Nat) (ci total : Nat) : Rc × Nat :=
  if h : total < limit then
    if (step ci total).rc = none then
      if h0 : (step ci total).count = 0 then (none, total)
      else allLoop step limit (ci + 1) (total + (step ci total).count)
    else ((step ci total).rc, total)
  else (none, total)
termination_by limit - total
decreasing_by
  simp_wf
  exact Nat.sub_lt_sub_left h (Nat.lt_add_of_pos_right (Nat.pos_of_ne_zero h0))

/-- Body of the case-1 switch of KFileReadAll (file.c lines 319-354):
one plain read, then, only if it succeeded with a short nonzero count,
the completion loop — with zero-timeout timed reads when minor ≥ 2,
plain reads otherwise.  Returns the loop rc and the accumulated total. -/
def readAllCore (vt : KFileVt) (pos bsize : Nat) : Rc × Nat :=
  if (vt.read 0 pos bsize).rc = none ∧ (vt.read 0 pos bsize).count ≠ 0 ∧
      (vt.read 0 pos bsize).count < bsize then
    if 2 ≤ vt.min then
      allLoop (fun ci t => vt.timed_read ci (pos + t) (bsize - t) (some 0)) bsize 1
        (vt.read 0 pos bsize).count
    else
      allLoop (fun ci t => vt.read ci (pos + t) (bsize - t)) bsize 1 (vt.read 0 pos bsize).count
  else ((vt.read 0 pos bsize).rc, (vt.read 0 pos bsize).count)

/-- KFileReadAll (file.c lines 294-366).  `numReadPtr`/`bufPtr` model the
NULL checks on num_read and buffer.  The returned pair is (rc, *num_read). -/
def KFileReadAll (self : Option KFile) (numReadPtr bufPtr : Bool) (pos bsize : Nat) : Rc × Nat :=
  if numReadPtr = false then (some rcReadParamNull, 0)
  else
    match self with
    | none => (some rcReadSelfNull, 0)
    | some f =>
      if f.read_enabled = false then (some rcReadNoPerm, 0)
      else if bufPtr = false then (some rcReadBufNull, 0)
      else if bsize = 0 then (some rcReadBufInsufficient, 0)
      else if f.vt.maj = 1 then
        let c := readAllCore f.vt pos bsize
        if c.2 ≠ 0 then (none, c.2) else (c.1, 0)
      else (some rcReadBadVersion, 0)

/-- Body of the case-1 switch of KFileTimedReadAll (file.c lines 393-429):
with minor ≥ 2, a first timed read with the caller's timeout then the
zero-timeout completion loop; below minor 2 (and, at the call site, only
with a NULL timeout) a plain-read loop from a zero total. -/
def timedReadAllCore (vt : KFileVt) (pos bsize : Nat) (tm : Option Nat) : Rc × Nat :=
  if 2 ≤ vt.min then
    if (vt.timed_read 0 pos bsize tm).rc = none ∧ (vt.timed_read 0 pos bsize tm).count ≠ 0 ∧
        (vt.timed_read 0 pos bsize tm).count < bsize then
      allLoop (fun ci t => vt.timed_read ci (pos + t) (bsize - t) (some 0)) bsize 1
        (vt.timed_read 0 pos bsize tm).count
    else ((vt.timed_read 0 pos bsize tm).rc, (vt.timed_read 0 pos bsize tm).count)
  else
    allLoop (fun ci t => vt.read ci (pos + t) (bsize - t)) bsize 0 0

/-- KFileTimedReadAll (file.c lines 368-444).  Below minor 2 with a
non-NULL timeout the switch falls through to the BadVersion return. -/
def KFileTimedReadAll (self : Option KFile) (numReadPtr bufPtr : Bool)
    (pos bsize : Nat) (tm : Option Nat) : Rc × Nat :=
  if numReadPtr = false then (some rcReadParamNull, 0)
  else
    match self with
    | none => (some rcReadSelfNull, 0)
    | some f =>
      if f.read_enabled = false then (some rcReadNoPerm, 0)
      else if bufPtr = false then (some rcReadBufNull, 0)
      else if bsize = 0 then (some rcReadBufInsufficient, 0)
      else if f.vt.maj = 1 ∧ (2 ≤ f.vt.min ∨ tm = none) then
        let c := timedReadAllCore f.vt pos bsize tm
        if c.2 ≠ 0 then (none, c.2) else (c.1, 0)
      else (some rcReadBadVersion, 0)

/-- KFileRead (file.c lines 222-248). -/
def KFileRead (self : Option KFile) (numReadPtr bufPtr : Bool) (pos bsize : Nat) : Rc × Nat :=
  if numReadPtr = false then (some rcReadParamNull, 0)
  else
    match self with
    | none => (some rcReadSelfNull, 0)
    | some f =>
      if f.read_enabled = false then (some rcReadNoPerm, 0)
      else if bufPtr = false then (some rcReadBufNull, 0)
      else if bsize = 0 then (some rcReadBufInsufficient, 0)
      else if f.vt.maj = 1 then
        let r := f.vt.read 0 pos bsize
        (r.rc, r.count)
      else (some rcReadBadVersion, 0)

/-- KFileTimedRead (file.c lines 250-280): with minor ≥ 2 dispatch to the
timed entry; below minor 2 a NULL timeout degrades to the plain read and a
non-NULL timeout falls through to BadVersion. -/
def KFileTimedRead (self : Option KFile) (numReadPtr bufPtr : Bool)
    (pos bsize : Nat) (tm : Option Nat) : Rc × Nat :=
  if numReadPtr = false then (some rcReadParamNull, 0)
  else
    match self with
    | none => (some rcReadSelfNull, 0)
    | some f =>
      if f.read_enabled = false then (some rcReadNoPerm, 0)
      else if bufPtr = false then (some rcReadBufNull, 0)
      else if bsize = 0 then (some rcReadBufInsufficient, 0)
      else if f.vt.maj = 1 then
        if 2 ≤ f.vt.min then
          let r := f.vt.timed_read 0 pos bsize tm
          (r.rc, r.count)
        else if tm = none then
          let r := f.vt.read 0 pos bsize
          (r.rc, r.count)
        else (some rcReadBadVersion, 0)
      else (some rcReadBadVersion, 0)

/-- The Exactly completion loop (file.c lines 484-498, 531-547, 554-568):
while `total < bytes` issue `step ci total`; on a backend error, abort
with it — except that when `abortOnErr` is false (the caller supplied no
explicit timeout) a Timeout/Exhausted error retries instead; a successful
zero-count read aborts with the Incomplete transfer error; the loop exit
returns the rc of the last backend call.  A retrying iteration makes no
progress in C, so the embedding takes fuel; `none` means the fuel ran out
where the C loop would still be running. -/
def exactlyLoop (step : Nat → Nat → BkResp) (abortOnErr : Bool) (bytes : Nat) :
    Nat → Nat → Nat → Rc → Option (Rc × Nat)
  | fuel, ci, total, rc =>
    if total < bytes then
      match fuel with
      | 0 => none
      | fuel' + 1 =>
        match (step ci total).rc with
        | some e =>
          if abortOnErr = true then some (some e, total)
          else if e.obj = RcObject.rcTimeout ∧ e.state = RcState.rcExhausted then
            exactlyLoop step abortOnErr bytes fuel' (ci + 1) (total + (step ci total).count)
              (some e)
          else some (some e, total)
        | none =>
          if (step ci total).count = 0 then some (some rcReadIncomplete, total)
          else exactlyLoop step abortOnErr bytes fuel' (ci + 1) (total + (step ci total).count)
            none
    else some (rc, total)

/-- KFileReadExactly (file.c lines 462-505).  Note bytes == 0 returns
success before the buffer NULL check.  The plain-read loop never aborts on
a Timeout/Exhausted error. -/
def KFileReadExactly (self : Option KFile) (bufPtr : Bool) (pos bytes fuel : Nat) : Option Rc :=
  match self with
  | none => some (some rcReadSelfNull)
  | some f =>
    if f.read_enabled = false then some (some rcReadNoPerm)
    else if bytes = 0 then some none
    else if bufPtr = false then some (some rcReadBufNull)
    else if f.vt.maj = 1 then
      (exactlyLoop (fun ci t => f.vt.read ci (pos + t) (bytes - t)) false bytes fuel 0 0 none).map
        Prod.fst
    else some (some rcReadBadVersion)

/-- KFileTimedReadExactly (file.c lines 507-578).  With minor ≥ 2 every
iteration passes the caller's timeout and any error aborts when that
timeout is non-NULL; below minor 2 a NULL timeout runs the plain-read
loop and a non-NULL timeout falls through to BadVersion. -/
def KFileTimedReadExactly (self : Option KFile) (bufPtr : Bool)
    (pos bytes : Nat) (tm : Option Nat) (fuel : Nat) : Option Rc :=
  match self with
  | none => some (some rcReadSelfNull)
  | some f =>
    if f.read_enabled = false then some (some rcReadNoPerm)
    else if bytes = 0 then some none
    else if bufPtr = false then some (some rcReadBufNull)
    else if f.vt.maj = 1 ∧ 2 ≤ f.vt.min then
      (exactlyLoop (fun ci t => f.vt.timed_read ci (pos + t) (bytes - t) tm) tm.isSome
        bytes fuel 0 0 none).map Prod.fst
    else if f.vt.maj = 1 ∧ tm = none then
      (exactlyLoop (fun ci t => f.vt.read ci (pos + t) (bytes - t)) false bytes fuel 0 0 none).map
        Prod.fst
    else some (some rcReadBadVersion)

/-- KFileWrite (file.c lines 589-616).  A NULL num_writ is substituted by
a local, so it is not a parameter; size == 0 returns success before the
buffer NULL check. -/
def KFileWrite (self : Option KFile) (bufPtr : Bool) (pos size : Nat) : Rc × Nat :=
  match self with
  | none => (some rcWriteSelfNull, 0)
  | some f =>
    if f.write_enabled = false then (some rcWriteNoPerm, 0)
    else if size = 0 then (none, 0)
    else if bufPtr = false then (some rcWriteBufNull, 0)
    else if f.vt.maj = 1 then
      let r := f.vt.write 0 pos size
      (r.rc, r.count)
    else (some rcWriteBadVersion, 0)

/-- KFileTimedWrite (file.c lines 618-649): the write-side mirror of
KFileTimedRead. -/
def KFileTimedWrite (self : Option KFile) (bufPtr : Bool)
    (pos size : Nat) (tm : Option Nat) : Rc × Nat :=
  match self with
  | none => (some rcWriteSelfNull, 0)
  | some f =>
    if f.write_enabled = false then (some rcWriteNoPerm, 0)
    else if size = 0 then (none, 0)
    else if bufPtr = false then (some rcWriteBufNull, 0)
    else if f.vt.maj = 1 then
      if 2 ≤ f.vt.min then
        let r := f.vt.timed_write 0 pos size tm
        (r.rc, r.count)
      else if tm = none then
        let r := f.vt.write 0 pos size
        (r.rc, r.count)
      else (some rcWriteBadVersion, 0)
    else (some rcWriteBadVersion, 0)

/-- Body of the case-1 switch of KFileWriteAll (file.c lines 688-723):
one plain write, then, only if it succeeded with a short nonzero count,
the completion loop — zero-timeout timed writes when minor ≥ 2, plain
writes otherwise. -/
def writeAllCore (vt : KFileVt) (pos size : Nat) : Rc × Nat :=
  if (vt.write 0 pos size).rc = none ∧ (vt.write 0 pos size).count ≠ 0 ∧
      (vt.write 0 pos size).count < size then
    if 2 ≤ vt.min then
      allLoop (fun ci t => vt.timed_write ci (pos + t) (size - t) (some 0)) size 1
        (vt.write 0 pos size).count
    else
      allLoop (fun ci t => vt.write ci (pos + t) (size - t)) size 1 (vt.write 0 pos size).count
  else ((vt.write 0 pos size).rc, (vt.write 0 pos size).count)

/-- KFileWriteAll (file.c lines 662-734): after the loop, *num_writ is the
total; success exactly when the total reached size; a clean stop short of
size synthesizes the Incomplete transfer error, an error stop returns the
backend error. -/
def KFileWriteAll (self : Option KFile) (bufPtr : Bool) (pos size : Nat) : Rc × Nat :=
  match self with
  | none => (some rcWriteSelfNull, 0)
  | some f =>
    if f.write_enabled = false then (some rcWriteNoPerm, 0)
    else if size = 0 then (none, 0)
    else if bufPtr = false then (some rcWriteBufNull, 0)
    else if f.vt.maj = 1 then
      let c := writeAllCore f.vt pos size
      (if c.2 = size then none
       else if c.1 = none then some rcWriteIncomplete
       else c.1, c.2)
    else (some rcWriteBadVersion, 0)

/-- Body of the case-1 switch of KFileTimedWriteAll (file.c lines 762-788):
with minor ≥ 2 a loop of timed writes each passing the caller's timeout;
below minor 2 (and only with a NULL timeout) a plain-write loop. -/
def timedWriteAllCore (vt : KFileVt) (pos size : Nat) (tm : Option Nat) : Rc × Nat :=
  if 2 ≤ vt.min then
    allLoop (fun ci t => vt.timed_write ci (pos + t) (size - t) tm) size 0 0
  else
    allLoop (fun ci t => vt.write ci (pos + t) (size - t)) size 0 0

/-- KFileTimedWriteAll (file.c lines 736-803). -/
def KFileTimedWriteAll (self : Option KFile) (bufPtr : Bool)
    (pos size : Nat) (tm : Option Nat) : Rc × Nat :=
  match self with
  | none => (some rcWriteSelfNull, 0)
  | some f =>
    if f.write_enabled = false then (some rcWriteNoPerm, 0)
    else if size = 0 then (none, 0)
    else if bufPtr = false then (some rcWriteBufNull, 0)
    else if f.vt.maj = 1 ∧ (2 ≤ f.vt.min ∨ tm = none) then
      let c := timedWriteAllCore f.vt pos size tm
      (if c.2 = size then none
       else if c.1 = none then some rcWriteIncomplete
       else c.1, c.2)
    else (some rcWriteBadVersion, 0)

/-- Result of one KRefcount operation. -/
inductive KrefRes where
  | okay
  | whack
  | negative
  | limit
deriving DecidableEq, Repr

/-- Modelled from the spec: the representable range of the reference
count used by KRefcountAdd/KRefcountDrop (klib, not under src/); the
spec only says AddRef fails when the count would overflow its
representable range, taken here as a 32-bit counter. -/
def krefLimitVal : Int := 4294967295

/-- Modelled from the spec: KRefcountAdd (klib, not under src/).
AddRef increments atomically and reports krefLimit when the count would
overflow; a negative count is a use-after-free symptom. -/
def KRefcountAdd (c : Int) : KrefRes × Int :=
  if krefLimitVal ≤ c then (.limit, c)
  else if c < 0 then (.negative, c)
  else (.okay, c + 1)

/-- Modelled from the spec: KRefcountDrop (klib, not under src/).
Release decrements atomically; dropping from 1 reaches zero and reports
krefWhack; dropping a count already at or below zero reports
krefNegative. -/
def KRefcountDrop (c : Int) : KrefRes × Int :=
  if c ≤ 0 then (.negative, c)
  else if c = 1 then (.whack, 0)
  else (.okay, c - 1)

/-- State of one KFile as the lifetime functions see it: its reference
count, whether an owning directory is registered, the vtable major
version, and an instrumentation counter of destroy invocations. -/
structure KFileObj where
  refcount : Int
  hasDir : Bool
  maj : Nat
  destroys : Nat
deriving DecidableEq, Repr

/-- KFileDestroy (file.c lines 44-56) on a non-NULL file: major version 1
dispatches to the backend destroy hook (counted by `destroys`), any other
major version is BadVersion. -/
def KFileDestroy (s : KFileObj) : Rc × KFileObj :=
  if s.maj = 1 then (none, { s with destroys := s.destroys + 1 })
  else (some rcDestroyBadVersion, s)

/-- Modelled from the spec: KDirectoryDestroyFile (the owning
directory's teardown, not under src/) — the owning collection intercepts
final teardown instead of the object's own destroy routine; counted by
the same `destroys` instrumentation. -/
def KDirectoryDestroyFile (s : KFileObj) : Rc × KFileObj :=
  (none, { s with destroys := s.destroys + 1 })

/-- KFileAddRef (file.c lines 85-100) on a non-NULL file. -/
def KFileAddRef (s : KFileObj) : Rc × KFileObj :=
  let r := KRefcountAdd s.refcount
  match r.1 with
  | .limit => (some rcAttachExcessive, s)
  | .negative => (some rcAttachInvalid, s)
  | _ => (none, { s with refcount := r.2 })

/-- KFileRelease (file.c lines 106-124) on a non-NULL file: krefWhack
routes to the owning directory's teardown when one is registered, else to
KFileDestroy; krefNegative is the Range/Excessive error. -/
def KFileRelease (s : KFileObj) : Rc × KFileObj :=
  let r := KRefcountDrop s.refcount
  match r.1 with
  | .whack =>
    if s.hasDir then KDirectoryDestroyFile { s with refcount := r.2 }
    else KFileDestroy { s with refcount := r.2 }
  | .negative => (some rcReleaseExcessive, s)
  | _ => (none, { s with refcount := r.2 })

/-- n successive KFileAddRef calls (rc values of the intermediate calls
are reported through `KFileAddRef` itself where a theorem needs them). -/
def iterAddRef : Nat → KFileObj → KFileObj
  | 0, s => s
  | n + 1, s => iterAddRef n (KFileAddRef s).2

/-- n successive KFileRelease calls. -/
def iterRelease : Nat → KFileObj → KFileObj
  | 0, s => s
  | n + 1, s => iterRelease n (KFileRelease s).2

/-- A KFile freshly passed through KFileInit (file.c line 860): reference
count 1, no owning directory recorded yet unless attached, no destroy
invocation yet. -/
def initKFileObj (hasDir : Bool) : KFileObj :=
  ⟨1, hasDir, 1, 0⟩

/-- Linux poll bits as used by syssock.c. -/
def POLLIN : Nat := 1

/-- POLLPRI. -/
def POLLPRI : Nat := 2

/-- POLLERR. -/
def POLLERR : Nat := 8

/-- POLLHUP. -/
def POLLHUP : Nat := 16

/-- POLLNVAL. -/
def POLLNVAL : Nat := 32

/-- POLLRDNORM. -/
def POLLRDNORM : Nat := 64

/-- POLLRDBAND. -/
def POLLRDBAND : Nat := 128

/-- POLLRDHUP (Linux value 0x2000). -/
def POLLRDHUP : Nat := 8192

/-- Mask of all bits of a 32-bit revents word except POLLIN, for the
`revents & ~POLLIN` test (revents is a nonnegative C int, so below 2^31). -/
def notPOLLIN : Nat := 4294967295 - POLLIN

/-- The OS-level outcomes one KSocketTimedRead observes: the socket_wait
return value, the errno left by the wait, the getsockopt(SO_ERROR) return
and value, and the recv return value with its errno. -/
structure SockReadEnv where
  revents : Int
  waitErrno : Nat
  soRet : Int
  soVal : Int
  recvRet : Int
  recvErrno : Nat
deriving DecidableEq, Repr

/-- Observable result of KSocketTimedRead: the rc, the value stored
through num_read (`none` when the C code leaves it unwritten), and how
many recv calls were issued. -/
structure SockReadOut where
  rc : Rc
  numRead : Option Nat
  recvCalls : Nat
deriving DecidableEq, Repr

/-- KSocketTimedRead (syssock.c lines 265-352): wait for readability,
then classify: negative wait result or POLLERR/POLLNVAL is an error
(errno if set, else SO_ERROR via getsockopt when POLLERR, else the
generic Unknown); POLLRDNORM/POLLRDBAND issues exactly one recv and
returns its count on success; POLLHUP/POLLRDHUP returns 0 bytes with
success; remaining bits outside POLLIN with a nonzero errno are
translated; otherwise Timeout/Exhausted. -/
def KSocketTimedRead (env : SockReadEnv) : SockReadOut :=
  let rb : Nat := env.revents.toNat
  if env.revents < 0 ∨ rb &&& (POLLERR + POLLNVAL) ≠ 0 then
    if env.waitErrno ≠ 0 then ⟨some (HandleErrno env.waitErrno), none, 0⟩
    else if rb &&& POLLERR ≠ 0 ∧ env.soRet = 0 ∧ 0 < env.soVal then
      ⟨some (HandleErrno env.soVal.toNat), none, 0⟩
    else ⟨some rcSockReadUnknown, none, 0⟩
  else if rb &&& (POLLRDNORM + POLLRDBAND) ≠ 0 then
    if 0 ≤ env.recvRet then ⟨none, some env.recvRet.toNat, 1⟩
    else ⟨some (HandleErrno env.recvErrno), none, 1⟩
  else if rb &&& (POLLHUP + POLLRDHUP) ≠ 0 then ⟨none, some 0, 0⟩
  else if rb &&& notPOLLIN ≠ 0 ∧ env.waitErrno ≠ 0 then
    ⟨some (HandleErrno env.waitErrno), none, 0⟩
  else ⟨some rcSockReadTimeout, none, 0⟩

/-- KSocketMakePath (syssock.c lines 462-480): with HOME unset, return
the Path/NotFound error leaving the caller's (memset-zeroed) sun_path
buffer untouched, modelled as the empty string.  Modelled from the spec:
string_printf (klib, not under src/) writes `<home>/.ncbi/<name>` and
succeeds (its overflow behavior is not modelled; no claim exercises it). -/
def KSocketMakePath (home : Option String) (name : String) : Rc × String :=
  match home with
  | none => (some rcMakePathHomeNotFound, "")
  | some h => (none, h ++ "/.ncbi/" ++ name)

/-- The OS-level outcomes KSocketConnectIPC observes per attempt: the
errno of a failing socket() call, and for connect() either success
(`none`) or a failing errno — connect also sees the path dialled. -/
structure IpcEnv where
  socketErrno : Nat → Option Nat
  connectErrno : Nat → String → Option Nat

/-- The do/while retry loop of KSocketConnectIPC (syssock.c lines
562-590): each attempt creates a socket and connects to `path`; success
returns 0 immediately; on failure rc is set from errno, and while the
retry budget allows (negative budget retries unboundedly) rc is reset to
0 and the loop re-enters after a sleep; otherwise the last attempt's rc
is returned.  `k` is the C retry_count; fuel exhaustion is `none`. -/
def connectIPCLoop (env : IpcEnv) (path : String) (retryTimeout : Int) :
    Nat → Nat → Option Rc
  | 0, _ => none
  | fuel + 1, k =>
    let rc : Rc :=
      match env.socketErrno k with
      | some e => some (HandleErrno e)
      | none =>
        match env.connectErrno k path with
        | none => none
        | some e => some (HandleErrno e)
    match rc with
    | none => some none
    | some r =>
      if retryTimeout < 0 ∨ (k : Int) < retryTimeout then
        connectIPCLoop env path retryTimeout fuel (k + 1)
      else some (some r)

/-- KSocketConnectIPC (syssock.c lines 552-595): the rc of
KSocketMakePath is assigned but the first loop iteration unconditionally
overwrites it, so `mp.1` is discarded here exactly as in the C. -/
def KSocketConnectIPC (env : IpcEnv) (home : Option String) (name : String)
    (retryTimeout : Int) (fuel : Nat) : Option Rc :=
  let mp := KSocketMakePath home name
  connectIPCLoop env mp.2 retryTimeout fuel 0

/-- The accumulated total of the All completion loop never drops below
its starting value. -/
theorem allLoop_le (step : Nat → Nat → BkResp) (limit ci total : Nat) :
    total ≤ (allLoop step limit ci total).2 := by
  unfold allLoop
  split
  · split
    · split
      · exact Nat.le_refl total
      · have h := allLoop_le step limit (ci + 1) (total + (step ci total).count)
        omega
    · exact Nat.le_refl total
  · exact Nat.le_refl total
termination_by limit - total
decreasing_by
  exact Nat.sub_lt_sub_left (by omega) (by omega)

/-- When the All completion loop starts from a zero total against a
nonzero limit and ends with a zero total, it stopped on its very first
backend call, whose rc it reports. -/
theorem allLoop_zero (step : Nat → Nat → BkResp) (limit ci : Nat)
    (hl : 0 < limit) (h : (allLoop step limit ci 0).2 = 0) :
    allLoop step limit ci 0 = ((step ci 0).rc, 0) := by
  rw [allLoop] at h ⊢
  rw [dif_pos hl] at h ⊢
  by_cases h1 : (step ci 0).rc = none
  · rw [if_pos h1] at h ⊢
    by_cases h0 : (step ci 0).count = 0
    · rw [dif_pos h0, h1]
    · rw [dif_neg h0] at h
      have := allLoop_le step limit (ci + 1) (0 + (step ci 0).count)
      omega
  · rw [if_neg h1]

/-- The Exactly loop reports success (a `none` rc) only with a total that
reached the requested byte count: every abort path carries an error. -/
theorem exactlyLoop_success_ge (step : Nat → Nat → BkResp) (abortOnErr : Bool) (bytes : Nat) :
    ∀ fuel ci total rc t,
      exactlyLoop step abortOnErr bytes fuel ci total rc = some (none, t) → bytes ≤ t := by
  intro fuel
  induction fuel with
  | zero =>
    intro ci total rc t h
    rw [exactlyLoop] at h
    by_cases hlt : total < bytes
    · rw [if_pos hlt] at h
      exact absurd h (by simp)
    · rw [if_neg hlt] at h
      simp only [Option.some.injEq, Prod.mk.injEq] at h
      omega
  | succ fuel ih =>
    intro ci total rc t h
    rw [exactlyLoop] at h
    by_cases hlt : total < bytes
    · rw [if_pos hlt] at h
      split at h
      · rename_i e heq
        by_cases ha : abortOnErr = true
        · rw [if_pos ha] at h
          simp at h
        · rw [if_neg ha] at h
          by_cases htm : e.obj = RcObject.rcTimeout ∧ e.state = RcState.rcExhausted
          · rw [if_pos htm] at h
            exact ih _ _ _ _ h
          · rw [if_neg htm] at h
            simp at h
      · by_cases h0 : (step ci total).count = 0
        · rw [if_pos h0] at h
          simp at h
        · rw [if_neg h0] at h
          exact ih _ _ _ _ h
    · rw [if_neg hlt] at h
      simp only [Option.some.injEq, Prod.mk.injEq] at h
      omega

/-- KFileAddRef on a file whose count is in range increments the count
and succeeds. -/
theorem KFileAddRef_okay (s : KFileObj) (h0 : 0 ≤ s.refcount)
    (h1 : s.refcount < krefLimitVal) :
    KFileAddRef s = (none, { s with refcount := s.refcount + 1 }) := by
  unfold KFileAddRef KRefcountAdd
  rw [if_neg (by omega), if_neg (by omega)]

/-- KFileRelease on a file whose count is at least 2 decrements the count,
succeeds, and does not destroy. -/
theorem KFileRelease_okay (s : KFileObj) (h : 2 ≤ s.refcount) :
    KFileRelease s = (none, { s with refcount := s.refcount - 1 }) := by
  unfold KFileRelease KRefcountDrop
  rw [if_neg (by omega), if_neg (by omega)]

/-- KFileRelease on a file whose count is exactly 1 triggers the single
teardown: the owning directory's teardown when one is registered, else
KFileDestroy. -/
theorem KFileRelease_whack (s : KFileObj) (h : s.refcount = 1) :
    KFileRelease s =
      (if s.hasDir then KDirectoryDestroyFile { s with refcount := 0 }
       else KFileDestroy { s with refcount := 0 }) := by
  unfold KFileRelease KRefcountDrop
  rw [if_neg (by omega), if_pos h]

/-- KFileRelease on a file whose count is already at or below zero fails
with the Range/Excessive error and leaves the state unchanged. -/
theorem KFileRelease_negative (s : KFileObj) (h : s.refcount ≤ 0) :
    KFileRelease s = (some rcReleaseExcessive, s) := by
  unfold KFileRelease KRefcountDrop
  rw [if_pos h]

/-- n in-range KFileAddRef calls add n to the count and touch nothing
else. -/
theorem iterAddRef_spec : ∀ (n : Nat) (s : KFileObj), 0 ≤ s.refcount →
    s.refcount + n ≤ krefLimitVal →
    iterAddRef n s = { s with refcount := s.refcount + n } := by
  intro n
  induction n with
  | zero => intro s _ _; simp [iterAddRef]
  | succ n ih =>
    intro s h0 hn
    rw [iterAddRef, KFileAddRef_okay s h0 (by push_cast at hn ⊢; omega)]
    rw [ih _ (by simp; omega) (by simp; push_cast at hn ⊢; omega)]
    simp
    push_cast
    omega

/-- n KFileRelease calls against a count of at least n+1 subtract n from
the count, destroy nothing, and touch nothing else. -/
theorem iterRelease_spec : ∀ (n : Nat) (s : KFileObj), (n : Int) + 1 ≤ s.refcount →
    iterRelease n s = { s with refcount := s.refcount - n } := by
  intro n
  induction n with
  | zero => intro s _; simp [iterRelease]
  | succ n ih =>
    intro s hn
    rw [iterRelease, KFileRelease_okay s (by push_cast at hn; omega)]
    rw [ih _ (by simp; push_cast at hn ⊢; omega)]
    simp
    push_cast
    omega

/-- Every RC produced by HandleErrno has target rcNoTarg. -/
theorem HandleErrno_targ (e : Nat) : (HandleErrno e).targ = RcTarget.rcNoTarg := by
  unfold HandleErrno
  split <;> rfl

/-- Any error the IPC connect retry loop returns was produced by
HandleErrno for some errno of a socket or connect attempt. -/
theorem connectIPCLoop_err (env : IpcEnv) (path : String) (rt : Int) :
    ∀ fuel k r, connectIPCLoop env path rt fuel k = some (some r) →
      ∃ e, r = HandleErrno e := by
  intro fuel
  induction fuel with
  | zero =>
    intro k r h
    simp [connectIPCLoop] at h
  | succ fuel ih =>
    intro k r h
    rw [connectIPCLoop] at h
    rcases hs : env.socketErrno k with _ | e1
    · rcases hc : env.connectErrno k path with _ | e2
      · rw [hs, hc] at h
        simp at h
      · rw [hs, hc] at h
        simp only [] at h
        by_cases hr : rt < 0 ∨ (k : Int) < rt
        · rw [if_pos hr] at h
          exact ih _ _ h
        · rw [if_neg hr] at h
          simp only [Option.some.injEq] at h
          exact ⟨e2, h.symm⟩
    · rw [hs] at h
      simp only [] at h
      by_cases hr : rt < 0 ∨ (k : Int) < rt
      · rw [if_pos hr] at h
        exact ih _ _ h
      · rw [if_neg hr] at h
        simp only [Option.some.injEq] at h
        exact ⟨e1, h.symm⟩

/-- On the main (version-1, precondition-passing) path, KFileReadAll is
the final fixup of file.c lines 359-365 applied to the core loop. -/
theorem KFileReadAll_main (f : KFile) (pos bsize : Nat)
    (hre : f.read_enabled = true) (hmaj : f.vt.maj = 1) (hbs : bsize ≠ 0) :
    KFileReadAll (some f) true true pos bsize =
      (if (readAllCore f.vt pos bsize).2 ≠ 0 then (none, (readAllCore f.vt pos bsize).2)
       else ((readAllCore f.vt pos bsize).1, 0)) := by
  simp [KFileReadAll, hre, hmaj, hbs]

/-- On the main path (version 1 and either minor ≥ 2 or a NULL timeout),
KFileTimedReadAll is the same final fixup applied to its core loop. -/
theorem KFileTimedReadAll_main (f : KFile) (pos bsize : Nat) (tm : Option Nat)
    (hre : f.read_enabled = true) (hmaj : f.vt.maj = 1) (hbs : bsize ≠ 0)
    (hc : 2 ≤ f.vt.min ∨ tm = none) :
    KFileTimedReadAll (some f) true true pos bsize tm =
      (if (timedReadAllCore f.vt pos bsize tm).2 ≠ 0 then
         (none, (timedReadAllCore f.vt pos bsize tm).2)
       else ((timedReadAllCore f.vt pos bsize tm).1, 0)) := by
  rcases hc with hm | htm
  · simp [KFileTimedReadAll, hre, hmaj, hbs, hm]
  · subst htm
    by_cases hm : 2 ≤ f.vt.min
    · simp [KFileTimedReadAll, hre, hmaj, hbs, hm]
    · simp [KFileTimedReadAll, hre, hmaj, hbs, hm]

/-- On the main path, KFileWriteAll is the final fixup of file.c lines
728-733 applied to the core loop. -/
theorem KFileWriteAll_main (f : KFile) (pos size : Nat)
    (hwe : f.write_enabled = true) (hmaj : f.vt.maj = 1) (hsz : size ≠ 0) :
    KFileWriteAll (some f) true pos size =
      (if (writeAllCore f.vt pos size).2 = size then none
       else if (writeAllCore f.vt pos size).1 = none then some rcWriteIncomplete
       else (writeAllCore f.vt pos size).1, (writeAllCore f.vt pos size).2) := by
  simp [KFileWriteAll, hwe, hmaj, hsz]

/-- On the main path (version 1 and either minor ≥ 2 or a NULL timeout),
KFileTimedWriteAll is the same final fixup applied to its core loop. -/
theorem KFileTimedWriteAll_main (f : KFile) (pos size : Nat) (tm : Option Nat)
    (hwe : f.write_enabled = true) (hmaj : f.vt.maj = 1) (hsz : size ≠ 0)
    (hc : 2 ≤ f.vt.min ∨ tm = none) :
    KFileTimedWriteAll (some f) true pos size tm =
      (if (timedWriteAllCore f.vt pos size tm).2 = size then none
       else if (timedWriteAllCore f.vt pos size tm).1 = none then some rcWriteIncomplete
       else (timedWriteAllCore f.vt pos size tm).1, (timedWriteAllCore f.vt pos size tm).2) := by
  rcases hc with hm | htm
  · simp [KFileTimedWriteAll, hwe, hmaj, hsz, hm]
  · subst htm
    by_cases hm : 2 ≤ f.vt.min
    · simp [KFileTimedWriteAll, hwe, hmaj, hsz, hm]
    · simp [KFileTimedWriteAll, hwe, hmaj, hsz, hm]

/-- A zero final total means readAllCore stopped on its first read, whose
rc it reports. -/
theorem readAllCore_zero (vt : KFileVt) (pos bsize : Nat)
    (h : (readAllCore vt pos bsize).2 = 0) :
    readAllCore vt pos bsize = ((vt.read 0 pos bsize).rc, 0) := by
  unfold readAllCore at h ⊢
  by_cases hg : (vt.read 0 pos bsize).rc = none ∧ (vt.read 0 pos bsize).count ≠ 0 ∧
      (vt.read 0 pos bsize).count < bsize
  · rw [if_pos hg] at h
    by_cases hm : 2 ≤ vt.min
    · rw [if_pos hm] at h
      have := allLoop_le (fun ci t => vt.timed_read ci (pos + t) (bsize - t) (some 0))
        bsize 1 (vt.read 0 pos bsize).count
      exact absurd (by omega : (vt.read 0 pos bsize).count = 0) hg.2.1
    · rw [if_neg hm] at h
      have := allLoop_le (fun ci t => vt.read ci (pos + t) (bsize - t))
        bsize 1 (vt.read 0 pos bsize).count
      exact absurd (by omega : (vt.read 0 pos bsize).count = 0) hg.2.1
  · rw [if_neg hg] at h ⊢
    have hc2 : (vt.read 0 pos bsize).count = 0 := h
    rw [hc2]

/-- A zero final total means timedReadAllCore stopped on its first
backend call (the timed read with the caller's timeout when minor ≥ 2,
else the first plain read), whose rc it reports. -/
theorem timedReadAllCore_zero (vt : KFileVt) (pos bsize : Nat) (tm : Option Nat)
    (hbs : bsize ≠ 0) (h : (timedReadAllCore vt pos bsize tm).2 = 0) :
    timedReadAllCore vt pos bsize tm =
      ((if 2 ≤ vt.min then (vt.timed_read 0 pos bsize tm).rc else (vt.read 0 pos bsize).rc), 0) := by
  unfold timedReadAllCore at h ⊢
  by_cases hm : 2 ≤ vt.min
  · rw [if_pos hm] at h ⊢
    by_cases hg : (vt.timed_read 0 pos bsize tm).rc = none ∧
        (vt.timed_read 0 pos bsize tm).count ≠ 0 ∧ (vt.timed_read 0 pos bsize tm).count < bsize
    · rw [if_pos hg] at h
      have := allLoop_le (fun ci t => vt.timed_read ci (pos + t) (bsize - t) (some 0))
        bsize 1 (vt.timed_read 0 pos bsize tm).count
      exact absurd (by omega : (vt.timed_read 0 pos bsize tm).count = 0) hg.2.1
    · rw [if_neg hg] at h ⊢
      have hc2 : (vt.timed_read 0 pos bsize tm).count = 0 := h
      rw [hc2, if_pos hm]
  · rw [if_neg hm] at h ⊢
    have hz := allLoop_zero (fun ci t => vt.read ci (pos + t) (bsize - t)) bsize 0
      (Nat.pos_of_ne_zero hbs) h
    rw [hz]
    simp [hm]

/-- Conclusion of claim C1 at one file and call site: whenever the All
completion loop accumulated a nonzero total, the call succeeds with
num_read equal to that total (whatever rc the last iteration produced);
an error reaches the caller only with a zero total, and it is then the rc
of the very first backend call. -/
def c1Prop (f : KFile) (pos bsize : Nat) (tm : Option Nat) : Prop :=
  (((readAllCore f.vt pos bsize).2 ≠ 0 →
      KFileReadAll (some f) true true pos bsize = (none, (readAllCore f.vt pos bsize).2)) ∧
   ((readAllCore f.vt pos bsize).2 = 0 →
      KFileReadAll (some f) true true pos bsize = ((readAllCore f.vt pos bsize).1, 0) ∧
      (readAllCore f.vt pos bsize).1 = (f.vt.read 0 pos bsize).rc)) ∧
  ((2 ≤ f.vt.min ∨ tm = none) →
    (((timedReadAllCore f.vt pos bsize tm).2 ≠ 0 →
       KFileTimedReadAll (some f) true true pos bsize tm =
         (none, (timedReadAllCore f.vt pos bsize tm).2)) ∧
     ((timedReadAllCore f.vt pos bsize tm).2 = 0 →
       KFileTimedReadAll (some f) true true pos bsize tm =
         ((timedReadAllCore f.vt pos bsize tm).1, 0) ∧
       (timedReadAllCore f.vt pos bsize tm).1 =
         (if 2 ≤ f.vt.min then (f.vt.timed_read 0 pos bsize tm).rc
          else (f.vt.read 0 pos bsize).rc))))

/-- C1: for every KFile passing the ReadAll/TimedReadAll preconditions
(non-null self, read_enabled, non-null buffer, nonzero size, major
version 1), a nonzero accumulated total makes the call return rc 0 with
num_read set to that total, even when a later loop iteration returned an
error; an error is propagated only with a zero total — and then it can
only be the first backend call's error. -/
theorem claimC1 (f : KFile) (pos bsize : Nat) (tm : Option Nat)
    (hre : f.read_enabled = true) (hmaj : f.vt.maj = 1) (hbs : bsize ≠ 0) :
    c1Prop f pos bsize tm := by
  unfold c1Prop
  refine ⟨⟨?_, ?_⟩, ?_⟩
  · intro ht
    rw [KFileReadAll_main f pos bsize hre hmaj hbs, if_pos ht]
  · intro ht
    refine ⟨?_, ?_⟩
    · rw [KFileReadAll_main f pos bsize hre hmaj hbs, if_neg (by omega)]
    · rw [readAllCore_zero f.vt pos bsize ht]
  · intro hc
    refine ⟨?_, ?_⟩
    · intro ht
      rw [KFileTimedReadAll_main f pos bsize tm hre hmaj hbs hc, if_pos ht]
    · intro ht
      refine ⟨?_, ?_⟩
      · rw [KFileTimedReadAll_main f pos bsize tm hre hmaj hbs hc, if_neg (by omega)]
      · rw [timedReadAllCore_zero f.vt pos bsize tm hbs ht]

/-- A readable version-1 file whose backend always delivers 3 bytes at
once, for the C1 witness. -/
def c1File : KFile :=
  ⟨⟨1, 0, fun _ _ _ => ⟨none, 3⟩, fun _ _ _ _ => ⟨none, 3⟩,
    fun _ _ _ => ⟨none, 3⟩, fun _ _ _ _ => ⟨none, 3⟩⟩, true, true⟩

/-- Witness for C1 at a concrete readable file and nonzero size. -/
theorem claimC1_witness : c1Prop c1File 0 3 none :=
  claimC1 c1File 0 3 none rfl rfl (by decide)

/-- A step function that always reports success with 2 fresh bytes, and
one that always reports a successful zero-byte read, for the C2 witness. -/
def c2Step : Nat → Nat → BkResp := fun _ _ => ⟨none, 2⟩

/-- Zero-byte successful read on every call. -/
def c2StepZ : Nat → Nat → BkResp := fun _ _ => ⟨none, 0⟩

/-- A readable version-1 file whose backend always delivers 2 bytes, for
the C2 witness. -/
def c2File : KFile :=
  ⟨⟨1, 0, fun _ _ _ => ⟨none, 2⟩, fun _ _ _ _ => ⟨none, 2⟩,
    fun _ _ _ => ⟨none, 2⟩, fun _ _ _ _ => ⟨none, 2⟩⟩, true, true⟩

/-- C2: the Exactly loop never reports success with an accumulated total
below the requested bytes; a successful zero-byte backend read before
completion makes it return the Incomplete transfer error at once; hence
a KFileReadExactly call on a valid file that returns success ran its
loop to a total of at least `bytes`. -/
theorem claimC2 :
    (∀ (step : Nat → Nat → BkResp) (abortOnErr : Bool) (bytes fuel ci total : Nat)
       (rc : Rc) (t : Nat),
       exactlyLoop step abortOnErr bytes fuel ci total rc = some (none, t) → bytes ≤ t) ∧
    (∀ (step : Nat → Nat → BkResp) (abortOnErr : Bool) (bytes fuel ci total : Nat) (rc : Rc),
       total < bytes → (step ci total).rc = none → (step ci total).count = 0 →
       exactlyLoop step abortOnErr bytes (fuel + 1) ci total rc =
         some (some rcReadIncomplete, total)) ∧
    (∀ (f : KFile) (pos bytes fuel : Nat), bytes ≠ 0 →
       KFileReadExactly (some f) true pos bytes fuel = some none →
       ∃ t, bytes ≤ t ∧
         exactlyLoop (fun ci d => f.vt.read ci (pos + d) (bytes - d)) false bytes fuel 0 0 none =
           some (none, t)) := by
  refine ⟨?_, ?_, ?_⟩
  · exact fun step a bytes fuel ci total rc t h =>
      exactlyLoop_success_ge step a bytes fuel ci total rc t h
  · intro step abortOnErr bytes fuel ci total rc hlt h1 h0
    rw [exactlyLoop, if_pos hlt, h1]
    simp [h0]
  · intro f pos bytes fuel hb hsucc
    simp only [KFileReadExactly] at hsucc
    by_cases hre : f.read_enabled = false
    · rw [if_pos hre] at hsucc
      simp at hsucc
    · rw [if_neg hre, if_neg hb, if_neg (by simp)] at hsucc
      by_cases hmaj : f.vt.maj = 1
      · rw [if_pos hmaj] at hsucc
        rcases hl : exactlyLoop (fun ci d => f.vt.read ci (pos + d) (bytes - d))
            false bytes fuel 0 0 none with _ | p
        · rw [hl] at hsucc
          simp at hsucc
        · obtain ⟨p1, p2⟩ := p
          rw [hl] at hsucc
          simp only [Option.map, Option.some.injEq] at hsucc
          have h1 : p1 = none := hsucc
          subst h1
          exact ⟨p2, exactlyLoop_success_ge _ _ _ _ _ _ _ _ hl, rfl⟩
      · rw [if_neg hmaj] at hsucc
        simp at hsucc

/-- Witness for C2: the no-progress loop fails Incomplete, the
always-2-bytes loop succeeds with a total meeting the request, and the
top-level call on the concrete file reaches success only through such a
loop run. -/
theorem claimC2_witness :
    (2 ≤ 2) ∧
    exactlyLoop c2StepZ false 2 (0 + 1) 0 0 none = some (some rcReadIncomplete, 0) ∧
    (∃ t, 2 ≤ t ∧
      exactlyLoop (fun ci d => c2File.vt.read ci (0 + d) (2 - d)) false 2 3 0 0 none =
        some (none, t)) :=
  ⟨claimC2.1 c2Step false 2 3 0 0 none 2 (by rfl),
   claimC2.2.1 c2StepZ false 2 0 0 0 none (by decide) (by rfl) (by rfl),
   claimC2.2.2 c2File 0 2 3 (by decide) (by rfl)⟩

/-- A writable version-1 file whose backend write delivers 1 byte on the
first call and stalls (zero bytes) afterwards: forward progress followed
by a clean stall. -/
def c3File : KFile :=
  ⟨⟨1, 0, fun _ _ _ => ⟨none, 0⟩, fun _ _ _ _ => ⟨none, 0⟩,
    fun ci _ _ => if ci = 0 then ⟨none, 1⟩ else ⟨none, 0⟩,
    fun _ _ _ _ => ⟨none, 0⟩⟩, true, true⟩

/-- C3 counterexample: KFileWriteAll on a file that made forward progress
(1 of 2 bytes) returns the Incomplete transfer error, not success — so a
partial transfer in the WriteAll completion loop is an error even after
forward progress, contradicting the claim for the write-side All loops. -/
theorem claimC3_cex :
    KFileWriteAll (some c3File) true 0 2 = (some rcWriteIncomplete, 1) ∧
    (KFileWriteAll (some c3File) true 0 2).1 ≠ none ∧
    (KFileWriteAll (some c3File) true 0 2).2 ≠ 0 := by
  have h : KFileWriteAll (some c3File) true 0 2 = (some rcWriteIncomplete, 1) := by
    simp [KFileWriteAll, writeAllCore, allLoop, c3File]
  refine ⟨h, ?_, ?_⟩ <;> rw [h] <;> simp

/-- C3 as amended: in ReadAll/TimedReadAll any nonzero reported total
comes with rc 0, while in WriteAll/TimedWriteAll a partial total is an
error — success there holds exactly when the reported total equals the
requested size. -/
theorem claimC3 :
    (∀ (self : Option KFile) (numReadPtr bufPtr : Bool) (pos bsize : Nat),
       (KFileReadAll self numReadPtr bufPtr pos bsize).2 ≠ 0 →
       (KFileReadAll self numReadPtr bufPtr pos bsize).1 = none) ∧
    (∀ (self : Option KFile) (numReadPtr bufPtr : Bool) (pos bsize : Nat) (tm : Option Nat),
       (KFileTimedReadAll self numReadPtr bufPtr pos bsize tm).2 ≠ 0 →
       (KFileTimedReadAll self numReadPtr bufPtr pos bsize tm).1 = none) ∧
    (∀ (f : KFile) (bufPtr : Bool) (pos size : Nat), f.write_enabled = true →
       ((KFileWriteAll (some f) bufPtr pos size).1 = none ↔
        (KFileWriteAll (some f) bufPtr pos size).2 = size)) ∧
    (∀ (f : KFile) (bufPtr : Bool) (pos size : Nat) (tm : Option Nat), f.write_enabled = true →
       ((KFileTimedWriteAll (some f) bufPtr pos size tm).1 = none ↔
        (KFileTimedWriteAll (some f) bufPtr pos size tm).2 = size)) := by
  refine ⟨?_, ?_, ?_, ?_⟩
  · intro self nrp bp pos bsize
    rcases self with _ | f <;> simp only [KFileReadAll] <;> split_ifs <;> simp_all
  · intro self nrp bp pos bsize tm
    rcases self with _ | f <;> simp only [KFileTimedReadAll] <;> split_ifs <;> simp_all
  · intro f bp pos size hwe
    simp only [KFileWriteAll]
    split_ifs <;> simp_all <;> omega
  · intro f bp pos size tm hwe
    simp only [KFileTimedWriteAll]
    split_ifs <;> simp_all <;> omega

/-- A readable version-1 minor-2 file whose backend always delivers the
full request at once. -/
def c3ReadFile : KFile :=
  ⟨⟨1, 2, fun _ _ s => ⟨none, s⟩, fun _ _ s _ => ⟨none, s⟩,
    fun _ _ s => ⟨none, s⟩, fun _ _ s _ => ⟨none, s⟩⟩, true, true⟩

/-- A writable version-1 minor-2 file whose backend always writes the
full request at once. -/
def c3WriteFile : KFile :=
  ⟨⟨1, 2, fun _ _ s => ⟨none, s⟩, fun _ _ s _ => ⟨none, s⟩,
    fun _ _ s => ⟨none, s⟩, fun _ _ s _ => ⟨none, s⟩⟩, true, true⟩

/-- Witness for the amended C3 at concrete files. -/
theorem claimC3_witness :
    (KFileReadAll (some c3ReadFile) true true 0 3).1 = none ∧
    (KFileTimedReadAll (some c3ReadFile) true true 0 3 none).1 = none ∧
    ((KFileWriteAll (some c3WriteFile) true 0 4).1 = none ↔
     (KFileWriteAll (some c3WriteFile) true 0 4).2 = 4) ∧
    ((KFileTimedWriteAll (some c3WriteFile) true 0 4 none).1 = none ↔
     (KFileTimedWriteAll (some c3WriteFile) true 0 4 none).2 = 4) :=
  ⟨claimC3.1 (some c3ReadFile) true true 0 3 (by decide),
   claimC3.2.1 (some c3ReadFile) true true 0 3 none (by decide),
   claimC3.2.2.1 c3WriteFile true 0 4 rfl,
   claimC3.2.2.2 c3WriteFile true 0 4 none rfl⟩

/-- C4: for every KFile passing the WriteAll/TimedWriteAll preconditions
with nonzero size, num_writ reports the loop total and the call succeeds
exactly when that total equals size; a clean stop short of size yields
the synthesized Incomplete transfer error, and an error stop short of
size returns the backend error. -/
theorem claimC4 :
    (∀ (f : KFile) (pos size : Nat), f.write_enabled = true → f.vt.maj = 1 → size ≠ 0 →
       (KFileWriteAll (some f) true pos size).2 = (writeAllCore f.vt pos size).2 ∧
       ((KFileWriteAll (some f) true pos size).1 = none ↔
        (writeAllCore f.vt pos size).2 = size) ∧
       ((writeAllCore f.vt pos size).1 = none → (writeAllCore f.vt pos size).2 ≠ size →
         (KFileWriteAll (some f) true pos size).1 = some rcWriteIncomplete) ∧
       ((writeAllCore f.vt pos size).1 ≠ none → (writeAllCore f.vt pos size).2 ≠ size →
         (KFileWriteAll (some f) true pos size).1 = (writeAllCore f.vt pos size).1)) ∧
    (∀ (f : KFile) (pos size : Nat) (tm : Option Nat), f.write_enabled = true →
       f.vt.maj = 1 → size ≠ 0 → (2 ≤ f.vt.min ∨ tm = none) →
       (KFileTimedWriteAll (some f) true pos size tm).2 =
         (timedWriteAllCore f.vt pos size tm).2 ∧
       ((KFileTimedWriteAll (some f) true pos size tm).1 = none ↔
        (timedWriteAllCore f.vt pos size tm).2 = size) ∧
       ((timedWriteAllCore f.vt pos size tm).1 = none →
         (timedWriteAllCore f.vt pos size tm).2 ≠ size →
         (KFileTimedWriteAll (some f) true pos size tm).1 = some rcWriteIncomplete) ∧
       ((timedWriteAllCore f.vt pos size tm).1 ≠ none →
         (timedWriteAllCore f.vt pos size tm).2 ≠ size →
         (KFileTimedWriteAll (some f) true pos size tm).1 =
           (timedWriteAllCore f.vt pos size tm).1)) := by
  constructor
  · intro f pos size hwe hmaj hsz
    rw [KFileWriteAll_main f pos size hwe hmaj hsz]
    refine ⟨rfl, ?_, ?_, ?_⟩
    · by_cases hs : (writeAllCore f.vt pos size).2 = size
      · simp [hs]
      · rw [if_neg hs]
        by_cases hc1 : (writeAllCore f.vt pos size).1 = none
        · simp [hc1, hs, rcWriteIncomplete]
        · simp [hc1, hs]
    · intro hc1 hs
      rw [if_neg hs, if_pos hc1]
    · intro hc1 hs
      rw [if_neg hs, if_neg hc1]
  · intro f pos size tm hwe hmaj hsz hc
    rw [KFileTimedWriteAll_main f pos size tm hwe hmaj hsz hc]
    refine ⟨rfl, ?_, ?_, ?_⟩
    · by_cases hs : (timedWriteAllCore f.vt pos size tm).2 = size
      · simp [hs]
      · rw [if_neg hs]
        by_cases hc1 : (timedWriteAllCore f.vt pos size tm).1 = none
        · simp [hc1, hs, rcWriteIncomplete]
        · simp [hc1, hs]
    · intro hc1 hs
      rw [if_neg hs, if_pos hc1]
    · intro hc1 hs
      rw [if_neg hs, if_neg hc1]

/-- A writable version-1 minor-2 file for the C4 witness. -/
def c4File : KFile :=
  ⟨⟨1, 2, fun _ _ s => ⟨none, s⟩, fun _ _ s _ => ⟨none, s⟩,
    fun _ _ s => ⟨none, s⟩, fun _ _ s _ => ⟨none, s⟩⟩, true, true⟩

/-- Witness for C4 at a concrete writable file. -/
theorem claimC4_witness :
    ((KFileWriteAll (some c4File) true 0 5).2 = (writeAllCore c4File.vt 0 5).2 ∧
     ((KFileWriteAll (some c4File) true 0 5).1 = none ↔
      (writeAllCore c4File.vt 0 5).2 = 5) ∧
     ((writeAllCore c4File.vt 0 5).1 = none → (writeAllCore c4File.vt 0 5).2 ≠ 5 →
       (KFileWriteAll (some c4File) true 0 5).1 = some rcWriteIncomplete) ∧
     ((writeAllCore c4File.vt 0 5).1 ≠ none → (writeAllCore c4File.vt 0 5).2 ≠ 5 →
       (KFileWriteAll (some c4File) true 0 5).1 = (writeAllCore c4File.vt 0 5).1)) ∧
    ((KFileTimedWriteAll (some c4File) true 0 5 none).2 =
       (timedWriteAllCore c4File.vt 0 5 none).2 ∧
     ((KFileTimedWriteAll (some c4File) true 0 5 none).1 = none ↔
      (timedWriteAllCore c4File.vt 0 5 none).2 = 5) ∧
     ((timedWriteAllCore c4File.vt 0 5 none).1 = none →
       (timedWriteAllCore c4File.vt 0 5 none).2 ≠ 5 →
       (KFileTimedWriteAll (some c4File) true 0 5 none).1 = some rcWriteIncomplete) ∧
     ((timedWriteAllCore c4File.vt 0 5 none).1 ≠ none →
       (timedWriteAllCore c4File.vt 0 5 none).2 ≠ 5 →
       (KFileTimedWriteAll (some c4File) true 0 5 none).1 =
         (timedWriteAllCore c4File.vt 0 5 none).1)) :=
  ⟨claimC4.1 c4File 0 5 rfl rfl (by decide),
   claimC4.2 c4File 0 5 none rfl rfl (by decide) (Or.inl (by decide))⟩

/-- C5: timeout errors in the Exactly loops depend on caller intent — a
loop without an explicit timeout (KFileReadExactly, or
KFileTimedReadExactly with NULL timeout) retries after an interior
Timeout/Exhausted error, while KFileTimedReadExactly with an explicit
timeout aborts at once on any interior error and returns it. -/
theorem claimC5 :
    (∀ (step : Nat → Nat → BkResp) (bytes fuel ci total : Nat) (rc0 : Rc) (e : RcErr),
       total < bytes → (step ci total).rc = some e →
       e.obj = RcObject.rcTimeout → e.state = RcState.rcExhausted →
       exactlyLoop step false bytes (fuel + 1) ci total rc0 =
         exactlyLoop step false bytes fuel (ci + 1) (total + (step ci total).count) (some e)) ∧
    (∀ (step : Nat → Nat → BkResp) (bytes fuel ci total : Nat) (rc0 : Rc) (e : RcErr),
       total < bytes → (step ci total).rc = some e →
       exactlyLoop step true bytes (fuel + 1) ci total rc0 = some (some e, total)) ∧
    (∀ (f : KFile) (pos bytes t fuel : Nat) (e : RcErr),
       f.read_enabled = true → f.vt.maj = 1 → 2 ≤ f.vt.min → bytes ≠ 0 →
       (f.vt.timed_read 0 (pos + 0) (bytes - 0) (some t)).rc = some e →
       KFileTimedReadExactly (some f) true pos bytes (some t) (fuel + 1) = some (some e)) ∧
    (∀ (f : KFile) (pos bytes fuel : Nat) (e : RcErr),
       f.read_enabled = true → f.vt.maj = 1 → bytes ≠ 0 →
       (f.vt.read 0 (pos + 0) (bytes - 0)).rc = some e →
       e.obj = RcObject.rcTimeout → e.state = RcState.rcExhausted →
       KFileReadExactly (some f) true pos bytes (fuel + 1) =
         (exactlyLoop (fun ci d => f.vt.read ci (pos + d) (bytes - d)) false bytes fuel 1
           (0 + (f.vt.read 0 (pos + 0) (bytes - 0)).count) (some e)).map Prod.fst) ∧
    (∀ (f : KFile) (pos bytes fuel : Nat) (e : RcErr),
       f.read_enabled = true → f.vt.maj = 1 → 2 ≤ f.vt.min → bytes ≠ 0 →
       (f.vt.timed_read 0 (pos + 0) (bytes - 0) none).rc = some e →
       e.obj = RcObject.rcTimeout → e.state = RcState.rcExhausted →
       KFileTimedReadExactly (some f) true pos bytes none (fuel + 1) =
         (exactlyLoop (fun ci d => f.vt.timed_read ci (pos + d) (bytes - d) none) false bytes
           fuel 1 (0 + (f.vt.timed_read 0 (pos + 0) (bytes - 0) none).count)
           (some e)).map Prod.fst) := by
  have hstep : ∀ (step : Nat → Nat → BkResp) (bytes fuel ci total : Nat) (rc0 : Rc) (e : RcErr),
      total < bytes → (step ci total).rc = some e →
      e.obj = RcObject.rcTimeout → e.state = RcState.rcExhausted →
      exactlyLoop step false bytes (fuel + 1) ci total rc0 =
        exactlyLoop step false bytes fuel (ci + 1) (total + (step ci total).count) (some e) := by
    intro step bytes fuel ci total rc0 e hlt hrc ho hs
    rw [exactlyLoop, if_pos hlt, hrc]
    simp [ho, hs]
  have habort : ∀ (step : Nat → Nat → BkResp) (bytes fuel ci total : Nat) (rc0 : Rc) (e : RcErr),
      total < bytes → (step ci total).rc = some e →
      exactlyLoop step true bytes (fuel + 1) ci total rc0 = some (some e, total) := by
    intro step bytes fuel ci total rc0 e hlt hrc
    rw [exactlyLoop, if_pos hlt, hrc]
    simp
  refine ⟨hstep, habort, ?_, ?_, ?_⟩
  · intro f pos bytes t fuel e hre hmaj hmin hb hrc
    simp only [KFileTimedReadExactly]
    rw [if_neg (by simp [hre]), if_neg hb, if_neg (by simp), if_pos ⟨hmaj, hmin⟩]
    simp only [Option.isSome_some]
    rw [habort _ bytes fuel 0 0 none e (Nat.pos_of_ne_zero hb) hrc]
    rfl
  · intro f pos bytes fuel e hre hmaj hb hrc ho hs
    simp only [KFileReadExactly]
    rw [if_neg (by simp [hre]), if_neg hb, if_neg (by simp), if_pos hmaj]
    rw [hstep _ bytes fuel 0 0 none e (Nat.pos_of_ne_zero hb) hrc ho hs]
  · intro f pos bytes fuel e hre hmaj hmin hb hrc ho hs
    simp only [KFileTimedReadExactly]
    rw [if_neg (by simp [hre]), if_neg hb, if_neg (by simp), if_pos ⟨hmaj, hmin⟩]
    simp only [Option.isSome_none]
    rw [hstep _ bytes fuel 0 0 none e (Nat.pos_of_ne_zero hb) hrc ho hs]

/-- The Timeout/Exhausted rc a blocking-capable backend would produce. -/
def c5TimeoutErr : RcErr := RC .rcFS .rcFile .rcReading .rcTimeout .rcExhausted

/-- A readable minor-2 file whose backend always fails Timeout/Exhausted,
for the C5 witness. -/
def c5File : KFile :=
  ⟨⟨1, 2, fun _ _ _ => ⟨some c5TimeoutErr, 0⟩, fun _ _ _ _ => ⟨some c5TimeoutErr, 0⟩,
    fun _ _ _ => ⟨none, 0⟩, fun _ _ _ _ => ⟨none, 0⟩⟩, true, true⟩

/-- Witness for C5 at a concrete always-timing-out file: the loop without
an explicit timeout retries, the one with an explicit timeout returns
the timeout error at once. -/
theorem claimC5_witness :
    exactlyLoop (fun _ _ => (⟨some c5TimeoutErr, 0⟩ : BkResp)) false 2 (0 + 1) 0 0 none =
      exactlyLoop (fun _ _ => (⟨some c5TimeoutErr, 0⟩ : BkResp)) false 2 0 (0 + 1)
        (0 + (⟨some c5TimeoutErr, 0⟩ : BkResp).count) (some c5TimeoutErr) ∧
    exactlyLoop (fun _ _ => (⟨some c5TimeoutErr, 0⟩ : BkResp)) true 2 (0 + 1) 0 0 none =
      some (some c5TimeoutErr, 0) ∧
    KFileTimedReadExactly (some c5File) true 0 2 (some 7) (0 + 1) =
      some (some c5TimeoutErr) ∧
    KFileReadExactly (some c5File) true 0 2 (0 + 1) =
      (exactlyLoop (fun ci d => c5File.vt.read ci (0 + d) (2 - d)) false 2 0 1
        (0 + (c5File.vt.read 0 (0 + 0) (2 - 0)).count) (some c5TimeoutErr)).map Prod.fst ∧
    KFileTimedReadExactly (some c5File) true 0 2 none (0 + 1) =
      (exactlyLoop (fun ci d => c5File.vt.timed_read ci (0 + d) (2 - d) none) false 2 0 1
        (0 + (c5File.vt.timed_read 0 (0 + 0) (2 - 0) none).count)
        (some c5TimeoutErr)).map Prod.fst :=
  ⟨claimC5.1 (fun _ _ => ⟨some c5TimeoutErr, 0⟩) 2 0 0 0 none c5TimeoutErr (by decide)
     (by rfl) (by rfl) (by rfl),
   claimC5.2.1 (fun _ _ => ⟨some c5TimeoutErr, 0⟩) 2 0 0 0 none c5TimeoutErr (by decide)
     (by rfl),
   claimC5.2.2.1 c5File 0 2 7 0 c5TimeoutErr rfl rfl (by decide) (by decide) (by rfl),
   claimC5.2.2.2.1 c5File 0 2 0 c5TimeoutErr rfl rfl (by decide) (by rfl) (by rfl) (by rfl),
   claimC5.2.2.2.2 c5File 0 2 0 c5TimeoutErr rfl rfl (by decide) (by decide) (by rfl)
     (by rfl) (by rfl)⟩

/-- C6: for a version-1 dispatch table below minor 2, KFileTimedRead and
KFileTimedWrite degrade to the plain backend call when given a NULL
timeout and fail BadVersion when given a real one; at minor 2 or above
the timed backend entry is invoked with the caller's timeout. -/
theorem claimC6 :
    (∀ (f : KFile) (pos bsize : Nat) (tm : Option Nat),
       f.read_enabled = true → f.vt.maj = 1 → bsize ≠ 0 →
       (2 ≤ f.vt.min →
         KFileTimedRead (some f) true true pos bsize tm =
           ((f.vt.timed_read 0 pos bsize tm).rc, (f.vt.timed_read 0 pos bsize tm).count)) ∧
       (f.vt.min < 2 →
         KFileTimedRead (some f) true true pos bsize none =
           ((f.vt.read 0 pos bsize).rc, (f.vt.read 0 pos bsize).count)) ∧
       (f.vt.min < 2 → tm ≠ none →
         KFileTimedRead (some f) true true pos bsize tm = (some rcReadBadVersion, 0))) ∧
    (∀ (f : KFile) (pos size : Nat) (tm : Option Nat),
       f.write_enabled = true → f.vt.maj = 1 → size ≠ 0 →
       (2 ≤ f.vt.min →
         KFileTimedWrite (some f) true pos size tm =
           ((f.vt.timed_write 0 pos size tm).rc, (f.vt.timed_write 0 pos size tm).count)) ∧
       (f.vt.min < 2 →
         KFileTimedWrite (some f) true pos size none =
           ((f.vt.write 0 pos size).rc, (f.vt.write 0 pos size).count)) ∧
       (f.vt.min < 2 → tm ≠ none →
         KFileTimedWrite (some f) true pos size tm = (some rcWriteBadVersion, 0))) := by
  constructor
  · intro f pos bsize tm hre hmaj hbs
    refine ⟨?_, ?_, ?_⟩
    · intro hm
      simp [KFileTimedRead, hre, hmaj, hbs, hm]
    · intro hm
      simp [KFileTimedRead, hre, hmaj, hbs, (by omega : ¬2 ≤ f.vt.min)]
      exact fun hcontra => absurd hcontra (by omega)
    · intro hm htm
      simp [KFileTimedRead, hre, hmaj, hbs, (by omega : ¬2 ≤ f.vt.min), htm]
      exact fun hcontra => absurd hcontra (by omega)
  · intro f pos size tm hwe hmaj hsz
    refine ⟨?_, ?_, ?_⟩
    · intro hm
      simp [KFileTimedWrite, hwe, hmaj, hsz, hm]
    · intro hm
      simp [KFileTimedWrite, hwe, hmaj, hsz, (by omega : ¬2 ≤ f.vt.min)]
      exact fun hcontra => absurd hcontra (by omega)
    · intro hm htm
      simp [KFileTimedWrite, hwe, hmaj, hsz, (by omega : ¬2 ≤ f.vt.min), htm]
      exact fun hcontra => absurd hcontra (by omega)

/-- A version-1 minor-2 file for the C6 witness. -/
def c6FileV2 : KFile :=
  ⟨⟨1, 2, fun _ _ s => ⟨none, s⟩, fun _ _ s _ => ⟨none, s⟩,
    fun _ _ s => ⟨none, s⟩, fun _ _ s _ => ⟨none, s⟩⟩, true, true⟩

/-- A version-1 minor-0 file for the C6 witness. -/
def c6FileV0 : KFile :=
  ⟨⟨1, 0, fun _ _ s => ⟨none, s⟩, fun _ _ s _ => ⟨none, s⟩,
    fun _ _ s => ⟨none, s⟩, fun _ _ s _ => ⟨none, s⟩⟩, true, true⟩

/-- Witness for C6 at concrete minor-2 and minor-0 files. -/
theorem claimC6_witness :
    KFileTimedRead (some c6FileV2) true true 0 4 (some 9) =
      ((c6FileV2.vt.timed_read 0 0 4 (some 9)).rc, (c6FileV2.vt.timed_read 0 0 4 (some 9)).count) ∧
    KFileTimedRead (some c6FileV0) true true 0 4 none =
      ((c6FileV0.vt.read 0 0 4).rc, (c6FileV0.vt.read 0 0 4).count) ∧
    KFileTimedRead (some c6FileV0) true true 0 4 (some 9) = (some rcReadBadVersion, 0) ∧
    KFileTimedWrite (some c6FileV2) true 0 4 (some 9) =
      ((c6FileV2.vt.timed_write 0 0 4 (some 9)).rc,
       (c6FileV2.vt.timed_write 0 0 4 (some 9)).count) ∧
    KFileTimedWrite (some c6FileV0) true 0 4 none =
      ((c6FileV0.vt.write 0 0 4).rc, (c6FileV0.vt.write 0 0 4).count) ∧
    KFileTimedWrite (some c6FileV0) true 0 4 (some 9) = (some rcWriteBadVersion, 0) :=
  ⟨(claimC6.1 c6FileV2 0 4 (some 9) rfl rfl (by decide)).1 (by decide),
   (claimC6.1 c6FileV0 0 4 none rfl rfl (by decide)).2.1 (by decide),
   (claimC6.1 c6FileV0 0 4 (some 9) rfl rfl (by decide)).2.2 (by decide) (by decide),
   (claimC6.2 c6FileV2 0 4 (some 9) rfl rfl (by decide)).1 (by decide),
   (claimC6.2 c6FileV0 0 4 none rfl rfl (by decide)).2.1 (by decide),
   (claimC6.2 c6FileV0 0 4 (some 9) rfl rfl (by decide)).2.2 (by decide) (by decide)⟩

/-- A valid readable and writable version-1 minor-2 file for C7. -/
def c7File : KFile :=
  ⟨⟨1, 2, fun _ _ _ => ⟨none, 1⟩, fun _ _ _ _ => ⟨none, 1⟩,
    fun _ _ _ => ⟨none, 1⟩, fun _ _ _ _ => ⟨none, 1⟩⟩, true, true⟩

/-- C7 counterexample: a zero-byte KFileReadExactly (and
KFileTimedReadExactly) on a valid readable file returns immediate
success, not the InsufficientBuffer precondition error the claim asserts
for every read-side operation. -/
theorem claimC7_cex :
    KFileReadExactly (some c7File) true 0 0 1 = some none ∧
    KFileReadExactly (some c7File) true 0 0 1 ≠ some (some rcReadBufInsufficient) ∧
    KFileTimedReadExactly (some c7File) true 0 0 (some 5) 1 = some none ∧
    KFileTimedReadExactly (some c7File) true 0 0 (some 5) 1 ≠
      some (some rcReadBufInsufficient) := by
  refine ⟨by decide, by decide, by decide, by decide⟩

/-- C7 as amended: a zero size fails InsufficientBuffer on Read,
TimedRead, ReadAll and TimedReadAll; ReadExactly and TimedReadExactly
return immediate success on zero bytes (nothing left to transfer); and
every write-side operation accepts a zero size as an immediate success
no-op. -/
theorem claimC7 :
    (∀ (f : KFile) (pos : Nat), f.read_enabled = true →
       KFileRead (some f) true true pos 0 = (some rcReadBufInsufficient, 0)) ∧
    (∀ (f : KFile) (pos : Nat) (tm : Option Nat), f.read_enabled = true →
       KFileTimedRead (some f) true true pos 0 tm = (some rcReadBufInsufficient, 0)) ∧
    (∀ (f : KFile) (pos : Nat), f.read_enabled = true →
       KFileReadAll (some f) true true pos 0 = (some rcReadBufInsufficient, 0)) ∧
    (∀ (f : KFile) (pos : Nat) (tm : Option Nat), f.read_enabled = true →
       KFileTimedReadAll (some f) true true pos 0 tm = (some rcReadBufInsufficient, 0)) ∧
    (∀ (f : KFile) (bufPtr : Bool) (pos fuel : Nat), f.read_enabled = true →
       KFileReadExactly (some f) bufPtr pos 0 fuel = some none) ∧
    (∀ (f : KFile) (bufPtr : Bool) (pos : Nat) (tm : Option Nat) (fuel : Nat),
       f.read_enabled = true →
       KFileTimedReadExactly (some f) bufPtr pos 0 tm fuel = some none) ∧
    (∀ (f : KFile) (bufPtr : Bool) (pos : Nat), f.write_enabled = true →
       KFileWrite (some f) bufPtr pos 0 = (none, 0)) ∧
    (∀ (f : KFile) (bufPtr : Bool) (pos : Nat) (tm : Option Nat), f.write_enabled = true →
       KFileTimedWrite (some f) bufPtr pos 0 tm = (none, 0)) ∧
    (∀ (f : KFile) (bufPtr : Bool) (pos : Nat), f.write_enabled = true →
       KFileWriteAll (some f) bufPtr pos 0 = (none, 0)) ∧
    (∀ (f : KFile) (bufPtr : Bool) (pos : Nat) (tm : Option Nat), f.write_enabled = true →
       KFileTimedWriteAll (some f) bufPtr pos 0 tm = (none, 0)) := by
  refine ⟨?_, ?_, ?_, ?_, ?_, ?_, ?_, ?_, ?_, ?_⟩
  · intro f pos h
    simp [KFileRead, h]
  · intro f pos tm h
    simp [KFileTimedRead, h]
  · intro f pos h
    simp [KFileReadAll, h]
  · intro f pos tm h
    simp [KFileTimedReadAll, h]
  · intro f bp pos fuel h
    simp [KFileReadExactly, h]
  · intro f bp pos tm fuel h
    simp [KFileTimedReadExactly, h]
  · intro f bp pos h
    simp [KFileWrite, h]
  · intro f bp pos tm h
    simp [KFileTimedWrite, h]
  · intro f bp pos h
    simp [KFileWriteAll, h]
  · intro f bp pos tm h
    simp [KFileTimedWriteAll, h]

/-- Witness for the amended C7 at the concrete file. -/
theorem claimC7_witness :
    KFileRead (some c7File) true true 0 0 = (some rcReadBufInsufficient, 0) ∧
    KFileTimedRead (some c7File) true true 0 0 none = (some rcReadBufInsufficient, 0) ∧
    KFileReadAll (some c7File) true true 0 0 = (some rcReadBufInsufficient, 0) ∧
    KFileTimedReadAll (some c7File) true true 0 0 none = (some rcReadBufInsufficient, 0) ∧
    KFileReadExactly (some c7File) true 0 0 1 = some none ∧
    KFileTimedReadExactly (some c7File) true 0 0 none 1 = some none ∧
    KFileWrite (some c7File) true 0 0 = (none, 0) ∧
    KFileTimedWrite (some c7File) true 0 0 none = (none, 0) ∧
    KFileWriteAll (some c7File) true 0 0 = (none, 0) ∧
    KFileTimedWriteAll (some c7File) true 0 0 none = (none, 0) :=
  ⟨claimC7.1 c7File 0 rfl,
   claimC7.2.1 c7File 0 none rfl,
   claimC7.2.2.1 c7File 0 rfl,
   claimC7.2.2.2.1 c7File 0 none rfl,
   claimC7.2.2.2.2.1 c7File true 0 1 rfl,
   claimC7.2.2.2.2.2.1 c7File true 0 none 1 rfl,
   claimC7.2.2.2.2.2.2.1 c7File true 0 rfl,
   claimC7.2.2.2.2.2.2.2.1 c7File true 0 none rfl,
   claimC7.2.2.2.2.2.2.2.2.1 c7File true 0 rfl,
   claimC7.2.2.2.2.2.2.2.2.2 c7File true 0 none rfl⟩

/-- A socket_wait outcome carrying only POLLPRI with errno EACCES left
set: nonnegative, no POLLERR/POLLNVAL, no data-ready bits, no hangup
bits. -/
def c8Env : SockReadEnv := ⟨2, 13, 0, 0, 0, 0⟩

/-- C8 counterexample: a readiness outcome with no error indication (no
negative result, no POLLERR/POLLNVAL), no data-ready bits and no hangup
bits does not always produce Timeout/Exhausted — with a residual POLLPRI
bit and a nonzero errno, KSocketTimedRead returns the errno translation
instead. -/
theorem claimC8_cex :
    KSocketTimedRead c8Env =
      ⟨some (RC .rcNS .rcNoTarg .rcReading .rcMemory .rcUnauthorized), none, 0⟩ ∧
    (KSocketTimedRead c8Env).rc ≠ some rcSockReadTimeout ∧
    (0 : Int) ≤ c8Env.revents ∧
    c8Env.revents.toNat &&& (POLLERR + POLLNVAL) = 0 ∧
    c8Env.revents.toNat &&& (POLLRDNORM + POLLRDBAND) = 0 ∧
    c8Env.revents.toNat &&& (POLLHUP + POLLRDHUP) = 0 := by
  refine ⟨by decide, by decide, by decide, by decide, by decide, by decide⟩

/-- C8 as amended: for a wait outcome with no error indication —
data-ready issues exactly one recv, returning its count as success when
recv yields a count and the errno translation when recv fails;
half-closed without data returns 0 bytes with success; otherwise the
call is Timeout/Exhausted, except that residual revents bits outside
POLLIN combined with a nonzero errno are translated via HandleErrno. -/
theorem claimC8 (env : SockReadEnv) (h0 : 0 ≤ env.revents)
    (herr : env.revents.toNat &&& (POLLERR + POLLNVAL) = 0) :
    (env.revents.toNat &&& (POLLRDNORM + POLLRDBAND) ≠ 0 →
      (KSocketTimedRead env).recvCalls = 1 ∧
      (0 ≤ env.recvRet → KSocketTimedRead env = ⟨none, some env.recvRet.toNat, 1⟩) ∧
      (env.recvRet < 0 →
        KSocketTimedRead env = ⟨some (HandleErrno env.recvErrno), none, 1⟩)) ∧
    (env.revents.toNat &&& (POLLRDNORM + POLLRDBAND) = 0 →
     env.revents.toNat &&& (POLLHUP + POLLRDHUP) ≠ 0 →
      KSocketTimedRead env = ⟨none, some 0, 0⟩) ∧
    (env.revents.toNat &&& (POLLRDNORM + POLLRDBAND) = 0 →
     env.revents.toNat &&& (POLLHUP + POLLRDHUP) = 0 →
      ((env.revents.toNat &&& notPOLLIN = 0 ∨ env.waitErrno = 0) →
        KSocketTimedRead env = ⟨some rcSockReadTimeout, none, 0⟩) ∧
      (env.revents.toNat &&& notPOLLIN ≠ 0 → env.waitErrno ≠ 0 →
        KSocketTimedRead env = ⟨some (HandleErrno env.waitErrno), none, 0⟩)) := by
  have hneg : ¬(env.revents < 0 ∨ env.revents.toNat &&& (POLLERR + POLLNVAL) ≠ 0) := by
    rintro (hc | hc)
    · omega
    · exact hc herr
  refine ⟨?_, ?_, ?_⟩
  · intro hd
    refine ⟨?_, ?_, ?_⟩
    · simp only [KSocketTimedRead]
      rw [if_neg hneg, if_pos hd]
      split_ifs <;> rfl
    · intro hr
      simp only [KSocketTimedRead]
      rw [if_neg hneg, if_pos hd, if_pos hr]
    · intro hr
      simp only [KSocketTimedRead]
      rw [if_neg hneg, if_pos hd, if_neg (by omega)]
  · intro hd hh
    simp only [KSocketTimedRead]
    rw [if_neg hneg, if_neg (by simp [hd]), if_pos hh]
  · intro hd hh
    refine ⟨?_, ?_⟩
    · intro hcase
      simp only [KSocketTimedRead]
      rw [if_neg hneg, if_neg (by simp [hd]), if_neg (by simp [hh]),
        if_neg (by rcases hcase with hc | hc <;> simp [hc])]
    · intro hr1 hr2
      simp only [KSocketTimedRead]
      rw [if_neg hneg, if_neg (by simp [hd]), if_neg (by simp [hh]), if_pos ⟨hr1, hr2⟩]

/-- A data-ready wait outcome (POLLRDNORM) with a successful 7-byte recv,
for the C8 witness. -/
def c8EnvReady : SockReadEnv := ⟨64, 0, 0, 0, 7, 0⟩

/-- Witness for the amended C8 at a data-ready outcome with a 7-byte
receive. -/
theorem claimC8_witness :
    (KSocketTimedRead c8EnvReady).recvCalls = 1 ∧
    (0 ≤ c8EnvReady.recvRet →
      KSocketTimedRead c8EnvReady = ⟨none, some c8EnvReady.recvRet.toNat, 1⟩) ∧
    (c8EnvReady.recvRet < 0 →
      KSocketTimedRead c8EnvReady = ⟨some (HandleErrno c8EnvReady.recvErrno), none, 1⟩) :=
  (claimC8 c8EnvReady (by decide) (by decide)).1 (by decide)

/-- State of a KFile after n AddRefs followed by n Releases, starting
from a fresh KFileInit state. -/
def c9AfterN (n : Nat) (hasDir : Bool) : KFileObj :=
  iterRelease n (iterAddRef n (initKFileObj hasDir))

/-- C9: after n AddRefs and n Releases the fresh file is back at count 1
with no destroy; the (n+1)-th Release performs exactly one destroy
invocation (through the owning directory when registered, else through
KFileDestroy, both counted by `destroys`), succeeds, and drops the count
to zero; one further Release fails with the Range/Excessive error and
does not destroy again. -/
theorem claimC9 (n : Nat) (hasDir : Bool) (hn : (n : Int) + 1 ≤ krefLimitVal) :
    c9AfterN n hasDir = { refcount := 1, hasDir := hasDir, maj := 1, destroys := 0 } ∧
    KFileRelease (c9AfterN n hasDir) =
      (none, { refcount := 0, hasDir := hasDir, maj := 1, destroys := 1 }) ∧
    KFileRelease { refcount := 0, hasDir := hasDir, maj := 1, destroys := 1 } =
      (some rcReleaseExcessive, { refcount := 0, hasDir := hasDir, maj := 1, destroys := 1 }) := by
  have hA : iterAddRef n (initKFileObj hasDir) =
      { refcount := 1 + (n : Int), hasDir := hasDir, maj := 1, destroys := 0 } := by
    have h := iterAddRef_spec n (initKFileObj hasDir) (by simp [initKFileObj])
      (by simp [initKFileObj]; omega)
    simpa [initKFileObj] using h
  have hB : c9AfterN n hasDir = { refcount := 1, hasDir := hasDir, maj := 1, destroys := 0 } := by
    unfold c9AfterN
    rw [hA]
    have h := iterRelease_spec n
      { refcount := 1 + (n : Int), hasDir := hasDir, maj := 1, destroys := 0 } (by simp; omega)
    simpa using h
  refine ⟨hB, ?_, ?_⟩
  · rw [hB, KFileRelease_whack _ rfl]
    cases hasDir <;> simp [KDirectoryDestroyFile, KFileDestroy]
  · exact KFileRelease_negative _ (by norm_num)

/-- Witness for C9 at n = 2 without an owning directory. -/
theorem claimC9_witness :
    c9AfterN 2 false = { refcount := 1, hasDir := false, maj := 1, destroys := 0 } ∧
    KFileRelease (c9AfterN 2 false) =
      (none, { refcount := 0, hasDir := false, maj := 1, destroys := 1 }) ∧
    KFileRelease { refcount := 0, hasDir := false, maj := 1, destroys := 1 } =
      (some rcReleaseExcessive, { refcount := 0, hasDir := false, maj := 1, destroys := 1 }) :=
  claimC9 2 false (by decide)

/-- An environment whose socket calls succeed and whose connect attempts
all fail with ECONNREFUSED, for the C10 witness. -/
def c10Env : IpcEnv := ⟨fun _ => none, fun _ _ => some 111⟩

/-- C10: when endpoint-name resolution fails in KSocketConnectIPC (HOME
unset makes KSocketMakePath fail Path/NotFound), the resolution error is
never returned — the retry loop dials the unresolved zeroed path and any
error the caller receives is an errno translation of a failed socket or
connect attempt, never the path-resolution rc. -/
theorem claimC10 :
    (∀ (env : IpcEnv) (name : String) (rt : Int) (fuel : Nat),
       KSocketConnectIPC env none name rt fuel = connectIPCLoop env "" rt fuel 0) ∧
    (KSocketMakePath none "srv").1 = some rcMakePathHomeNotFound ∧
    (∀ (env : IpcEnv) (name : String) (rt : Int) (fuel : Nat) (r : RcErr),
       KSocketConnectIPC env none name rt fuel = some (some r) →
       (∃ e, r = HandleErrno e) ∧ r ≠ rcMakePathHomeNotFound) := by
  refine ⟨?_, rfl, ?_⟩
  · intro env name rt fuel
    rfl
  · intro env name rt fuel r h
    have h2 : connectIPCLoop env "" rt fuel 0 = some (some r) := h
    obtain ⟨e, he⟩ := connectIPCLoop_err env "" rt fuel 0 r h2
    refine ⟨⟨e, he⟩, ?_⟩
    intro hcontra
    have ht := HandleErrno_targ e
    rw [← he, hcontra] at ht
    simp [rcMakePathHomeNotFound, RC] at ht

/-- Witness for C10: with HOME unset and every connect refused, the
caller gets the ECONNREFUSED translation, which is an errno translation
and differs from the path-resolution error. -/
theorem claimC10_witness :
    KSocketConnectIPC c10Env none "srv" 0 1 = connectIPCLoop c10Env "" 0 1 0 ∧
    ((∃ e, HandleErrno 111 = HandleErrno e) ∧ HandleErrno 111 ≠ rcMakePathHomeNotFound) :=
  ⟨claimC10.1 c10Env "srv" 0 1,
   claimC10.2.2 c10Env "srv" 0 1 (HandleErrno 111) (by decide)⟩
